import Mathlib

/-!
Shallow embedding of `whisper_mps.py`: a compatibility shim that wraps a
tensor-transfer call (`patched_to`), a recursive module transform
(`patched_apply`), a model loader (`optimized_load_model`), and a CLI entry
point (`main` / the `__main__` top level) with sparse-tensor fallback and a
single CPU retry.  External collaborators (the unpatched transfer, the bulk
module transform, the model loader, the wrapped whisper CLI) are modelled as
function parameters; failures are values of an explicit error type, where
`Err.notImplemented` plays the role of Python's `NotImplementedError` and
`Err.other` any other exception type.
-/

set_option autoImplicit false

namespace WhisperMps

/-- The operation-name substring used by the code to recognise the
unsupported-sparse-operation failure. -/
def markerStr : String := "aten::_sparse_coo_tensor_with_dims_and_tensors"

/-- Whether `needle` occurs as a contiguous segment of `hay`
(model of Python's `needle in hay` on character lists). -/
def containsSeg (needle : List Char) : List Char → Bool
  | [] => needle.isEmpty
  | c :: rest => List.isPrefixOf needle (c :: rest) || containsSeg needle rest

/-- Model of Python's substring test `needle in hay` on strings. -/
def strContains (hay needle : String) : Bool :=
  containsSeg needle.toList hay.toList

/-- Model of Python's `s.startswith(pre)` on strings. -/
def strStarts (s pre : String) : Bool :=
  List.isPrefixOf pre.toList s.toList

/-- A raised exception: `notImplemented` models `NotImplementedError`
(the only type the guards catch), `other` models every other exception type.
Both carry the exception message. -/
inductive Err where
  | notImplemented (msg : String)
  | other (msg : String)
deriving DecidableEq

/-- A log record emitted through the `whisper_mps` logger, tagged with its
level. -/
inductive LogEntry where
  | info (msg : String)
  | warn (msg : String)
  | error (msg : String)
deriving DecidableEq

/-- A tensor, modelled as an opaque payload plus its layout flag
(`is_sparse` mirrors `torch.Tensor.is_sparse`). -/
structure Tensor where
  data : Nat
  is_sparse : Bool
deriving DecidableEq

/-- Densification (`torch.Tensor.to_dense`): same payload, dense layout. -/
def Tensor.to_dense (t : Tensor) : Tensor :=
  ⟨t.data, false⟩

/-- `patched_to` (lines 36-45): attempt the original transfer; on a
`NotImplementedError`, if the tensor is sparse, log a warning and retry the
transfer once on the densified tensor (the retry is not itself guarded);
otherwise log an error and re-raise.  Exceptions of any other type are not
caught.  Returns the result together with the emitted log records. -/
def patched_to {P R : Type} (origTo : Tensor → P → Except Err R)
    (self : Tensor) (p : P) : Except Err R × List LogEntry :=
  match origTo self p with
  | Except.ok r => (Except.ok r, [])
  | Except.error (Err.notImplemented msg) =>
    if self.is_sparse then
      (origTo self.to_dense p,
        [LogEntry.warn ("Converting sparse tensor to dense for MPS compatibility: " ++ msg)])
    else
      (Except.error (Err.notImplemented msg),
        [LogEntry.error ("NotImplementedError in patched_to: " ++ msg)])
  | Except.error (Err.other msg) => (Except.error (Err.other msg), [])

mutual

/-- A module tree (`torch.nn.Module`): named parameters, named buffers
(entries may be `None`), and child modules. -/
inductive Module where
  | mk : List (String × Option Tensor) → List (String × Option Tensor) →
      ModuleList → Module

/-- A list of child modules (mutual with `Module`). -/
inductive ModuleList where
  | nil : ModuleList
  | cons : Module → ModuleList → ModuleList

end

/-- Number of (top-level) parameter entries of a module. -/
def Module.numParams : Module → Nat
  | Module.mk ps _ _ => ps.length

/-- Number of (top-level) buffer entries of a module. -/
def Module.numBuffers : Module → Nat
  | Module.mk _ bs _ => bs.length

/-- Number of sparse (non-`None`) parameters of a module (top level). -/
def countSparseParams : Module → Nat
  | Module.mk ps _ _ =>
    ps.countP fun kv =>
      match kv.2 with
      | some t => t.is_sparse
      | none => false

/-- The body of the per-item loops of `patched_apply` (lines 63-85) for one
non-`None` entry: apply `fn`; on a `NotImplementedError`, if the tensor is
sparse, log, densify and reapply (unguarded, so a second failure
propagates); if it is not sparse the exception is swallowed and the entry
keeps its old value with no log record.  Other exception types propagate. -/
def applyItem (fn : Tensor → Except Err Tensor) (label key : String)
    (t : Tensor) : Except Err Tensor × List LogEntry :=
  match fn t with
  | Except.ok r => (Except.ok r, [])
  | Except.error (Err.notImplemented _) =>
    if t.is_sparse then
      match fn t.to_dense with
      | Except.ok r =>
        (Except.ok r, [LogEntry.info ("Converting sparse " ++ label ++ " to dense: " ++ key)])
      | Except.error e =>
        (Except.error e, [LogEntry.info ("Converting sparse " ++ label ++ " to dense: " ++ key)])
    else (Except.ok t, [])
  | Except.error (Err.other s) => (Except.error (Err.other s), [])

/-- The per-item loop of `patched_apply` over a parameter or buffer dict:
`None` entries are skipped; a propagating failure aborts the rest. -/
def applyItems (fn : Tensor → Except Err Tensor) (label : String) :
    List (String × Option Tensor) →
    Except Err (List (String × Option Tensor)) × List LogEntry
  | [] => (Except.ok [], [])
  | (k, none) :: rest =>
    match applyItems fn label rest with
    | (Except.ok rest2, logs) => (Except.ok ((k, none) :: rest2), logs)
    | (Except.error e, logs) => (Except.error e, logs)
  | (k, some t) :: rest =>
    match applyItem fn label k t with
    | (Except.error e, logs) => (Except.error e, logs)
    | (Except.ok t2, logs1) =>
      match applyItems fn label rest with
      | (Except.ok rest2, logs2) => (Except.ok ((k, some t2) :: rest2), logs1 ++ logs2)
      | (Except.error e, logs2) => (Except.error e, logs1 ++ logs2)

mutual

/-- `patched_apply` (lines 54-92): attempt the bulk transform (the external
`_original_apply`); on a `NotImplementedError` whose message contains the
sparse-operation marker, log a warning and fall back to per-parameter and
per-buffer application, then recurse into every child module (through the
patched function, as the class attribute was replaced); any other failure
re-raises without further logging. -/
def patched_apply (bulk : Module → Except Err Module)
    (fn : Tensor → Except Err Tensor) :
    Module → Except Err Module × List LogEntry
  | Module.mk ps bs cs =>
    match bulk (Module.mk ps bs cs) with
    | Except.ok m2 => (Except.ok m2, [])
    | Except.error (Err.other s) => (Except.error (Err.other s), [])
    | Except.error (Err.notImplemented msg) =>
      if strContains msg markerStr then
        let l0 := LogEntry.warn ("Handling sparse tensor in Module._apply: " ++ msg)
        match applyItems fn "parameter" ps with
        | (Except.error e, logsP) => (Except.error e, l0 :: logsP)
        | (Except.ok ps2, logsP) =>
          match applyItems fn "buffer" bs with
          | (Except.error e, logsB) => (Except.error e, l0 :: (logsP ++ logsB))
          | (Except.ok bs2, logsB) =>
            match applyChildren bulk fn cs with
            | (Except.error e, logsC) =>
              (Except.error e, l0 :: (logsP ++ logsB ++ logsC))
            | (Except.ok cs2, logsC) =>
              (Except.ok (Module.mk ps2 bs2 cs2), l0 :: (logsP ++ logsB ++ logsC))
      else (Except.error (Err.notImplemented msg), [])

/-- The child-recursion loop of `patched_apply` (lines 87-88): each child is
processed by the patched `_apply`; a failure aborts the remaining children. -/
def applyChildren (bulk : Module → Except Err Module)
    (fn : Tensor → Except Err Tensor) :
    ModuleList → Except Err ModuleList × List LogEntry
  | ModuleList.nil => (Except.ok ModuleList.nil, [])
  | ModuleList.cons c rest =>
    match patched_apply bulk fn c with
    | (Except.error e, logs) => (Except.error e, logs)
    | (Except.ok c2, logs1) =>
      match applyChildren bulk fn rest with
      | (Except.error e, logs2) => (Except.error e, logs1 ++ logs2)
      | (Except.ok rest2, logs2) =>
        (Except.ok (ModuleList.cons c2 rest2), logs1 ++ logs2)

end

/-- Spec-side characterisation of one transformed item: the transform's
result, or -- when the direct application fails -- its result on the
densified tensor (the final fallback arm is unreachable when the transform
succeeds on dense tensors). -/
def transformedTensor (fn : Tensor → Except Err Tensor) (t : Tensor) : Tensor :=
  match fn t with
  | Except.ok r => r
  | Except.error _ =>
    match fn t.to_dense with
    | Except.ok r => r
    | Except.error _ => t

mutual

/-- Spec-side deep transform of a module tree: every parameter and buffer
is mapped through `transformedTensor`, every child is transformed
recursively -- the reference result the module apply guard should produce. -/
def specDeepTransform (fn : Tensor → Except Err Tensor) : Module → Module
  | Module.mk ps bs cs =>
    Module.mk (ps.map fun kv => (kv.1, kv.2.map (transformedTensor fn)))
      (bs.map fun kv => (kv.1, kv.2.map (transformedTensor fn)))
      (specDeepTransformList fn cs)

/-- Spec-side deep transform of a list of child modules. -/
def specDeepTransformList (fn : Tensor → Except Err Tensor) :
    ModuleList → ModuleList
  | ModuleList.nil => ModuleList.nil
  | ModuleList.cons c rest =>
    ModuleList.cons (specDeepTransform fn c) (specDeepTransformList fn rest)

end

/-- A loaded model; `evalMode` records whether `model.eval()` was invoked. -/
structure Model where
  evalMode : Bool
deriving DecidableEq

/-- `optimized_load_model` (lines 101-120): log, call the original loader
(any failure propagates unchanged -- there is no handler), and on success
put the model in eval mode when the target device is `mps`. -/
def optimized_load_model (origLoad : String → Option String → Except Err Model)
    (name : String) (device : Option String) : Except Err Model × List LogEntry :=
  match origLoad name device with
  | Except.error e => (Except.error e, [LogEntry.info ("Loading model " ++ name)])
  | Except.ok m =>
    if device = some "mps" then
      (Except.ok (Model.mk true),
        [LogEntry.info ("Loading model " ++ name), LogEntry.info "Model loaded"])
    else
      (Except.ok m,
        [LogEntry.info ("Loading model " ++ name), LogEntry.info "Model loaded"])

/-- The CPU-retry argument rewrite of `main` (lines 175-194), over
`sys.argv[1:]`: a space-form `--device` (resp. `--fp16`) is replaced by
`--device cpu` (resp. `--fp16 False`) and consumes the following value
token; a join-form `--device=...` (resp. `--fp16=...`) is rewritten in
place; every other token passes through. -/
def rewriteArgs : List String → List String
  | [] => []
  | [arg] =>
    if arg = "--device" then ["--device", "cpu"]
    else if strStarts arg "--device=" then ["--device=cpu"]
    else if arg = "--fp16" then ["--fp16", "False"]
    else if strStarts arg "--fp16=" then ["--fp16=False"]
    else [arg]
  | arg :: next :: rest =>
    if arg = "--device" then "--device" :: "cpu" :: rewriteArgs rest
    else if strStarts arg "--device=" then "--device=cpu" :: rewriteArgs (next :: rest)
    else if arg = "--fp16" then "--fp16" :: "False" :: rewriteArgs rest
    else if strStarts arg "--fp16=" then "--fp16=False" :: rewriteArgs (next :: rest)
    else arg :: rewriteArgs (next :: rest)

/-- The input tokens that are neither a rewritten flag nor a value token
consumed by a space-form flag: the residue the rewrite must leave intact. -/
def residual : List String → List String
  | [] => []
  | [arg] =>
    if arg = "--device" || arg = "--fp16" then []
    else if strStarts arg "--device=" || strStarts arg "--fp16=" then []
    else [arg]
  | arg :: next :: rest =>
    if arg = "--device" || arg = "--fp16" then residual rest
    else if strStarts arg "--device=" || strStarts arg "--fp16=" then
      residual (next :: rest)
    else arg :: residual (next :: rest)

/-- Benchmark-flag stripping (lines 154-156): `sys.argv.remove` deletes the
first occurrence of `--benchmark` when one is present. -/
def stripBench (argv : List String) : List String :=
  if argv.contains "--benchmark" then argv.erase "--benchmark" else argv

/-- The `sys.argv` installed for the CPU retry (line 194): the program name
is kept and the remaining arguments are rewritten. -/
def retryArgv (argv1 : List String) : List String :=
  argv1.take 1 ++ rewriteArgs (argv1.drop 1)

/-- `benchmark_transcription` (lines 126-132): run the wrapped call between
two clock samples; on success log and return the elapsed duration, on
failure the exception propagates before any duration is taken. -/
def benchmark_transcription {R : Type} (func : Unit → Except Err R)
    (t0 t1 : Int) : (Except Err R × Option Int) × List LogEntry :=
  match func () with
  | Except.ok r => ((Except.ok r, some (t1 - t0)), [LogEntry.info "Transcription completed"])
  | Except.error e => ((Except.error e, none), [])

/-- The observable outcome of one invocation of `main`: the returned or
raised value, the successive `sys.argv` values passed to the wrapped CLI,
the log records, and the logged benchmark duration when one was taken. -/
structure RunOut (R : Type) where
  result : Except Err R
  calls : List (List String)
  logs : List LogEntry
  duration : Option Int

/-- `main` (lines 134-201): strip the benchmark flag when present and run
the wrapped CLI (timed in benchmark mode); on a `NotImplementedError` whose
message contains the sparse-operation marker, log, rewrite the arguments to
force CPU and disabled fp16, and run the CLI once more (unguarded, so a
second failure propagates); any other `NotImplementedError` and any other
exception is logged and re-raised.  `cli` models the wrapped
`whisper.transcribe.cli`, reading the installed `sys.argv`; `t0`, `t1` are
the two wall-clock samples of the benchmark wrapper. -/
def mainRun {R : Type} (cli : List String → Except Err R) (t0 t1 : Int)
    (argv : List String) : RunOut R :=
  let benchMode := argv.contains "--benchmark"
  let argv1 := stripBench argv
  let baseLogs :=
    if benchMode then
      [LogEntry.info "Starting whisper_mps", LogEntry.info "Running in benchmark mode"]
    else
      [LogEntry.info "Starting whisper_mps", LogEntry.info "Attempting to run whisper"]
  let run1 :=
    if benchMode then benchmark_transcription (fun _ => cli argv1) t0 t1
    else ((cli argv1, none), [])
  match run1 with
  | ((Except.ok r, d), blogs) =>
    RunOut.mk (Except.ok r) [argv1] (baseLogs ++ blogs) d
  | ((Except.error (Err.notImplemented msg), _), blogs) =>
    if strContains msg markerStr then
      RunOut.mk (cli (retryArgv argv1)) [argv1, retryArgv argv1]
        (baseLogs ++ blogs ++
          [LogEntry.error ("NotImplementedError: " ++ msg),
            LogEntry.warn "Falling back to CPU due to sparse tensor error",
            LogEntry.info "Retrying with CPU"])
        none
    else
      RunOut.mk (Except.error (Err.notImplemented msg)) [argv1]
        (baseLogs ++ blogs ++ [LogEntry.error ("NotImplementedError: " ++ msg)])
        none
  | ((Except.error (Err.other msg), _), blogs) =>
    RunOut.mk (Except.error (Err.other msg)) [argv1]
      (baseLogs ++ blogs ++ [LogEntry.error ("Unexpected error: " ++ msg)])
      none

/-- The `__main__` top level (lines 203-208): `sys.exit(main())` -- the
wrapped CLI returns `None`, so success exits with code 0 -- and any
exception reaching this level exits with code 1. -/
def topLevel (cli : List String → Except Err Unit) (t0 t1 : Int)
    (argv : List String) : Nat :=
  match (mainRun cli t0 t1 argv).result with
  | Except.ok _ => 0
  | Except.error _ => 1

/-! ### Helper lemmas about the argument rewrite -/

/-- Unfolding lemma for `rewriteArgs` on any cons cell. -/
theorem rewriteArgs_cons (a : String) (l : List String) :
    rewriteArgs (a :: l) =
      if a = "--device" then "--device" :: "cpu" :: rewriteArgs (l.drop 1)
      else if strStarts a "--device=" then "--device=cpu" :: rewriteArgs l
      else if a = "--fp16" then "--fp16" :: "False" :: rewriteArgs (l.drop 1)
      else if strStarts a "--fp16=" then "--fp16=False" :: rewriteArgs l
      else a :: rewriteArgs l := by
  cases l <;> rfl

/-- Unfolding lemma for `residual` on any cons cell. -/
theorem residual_cons (a : String) (l : List String) :
    residual (a :: l) =
      if a = "--device" || a = "--fp16" then residual (l.drop 1)
      else if strStarts a "--device=" || strStarts a "--fp16=" then residual l
      else a :: residual l := by
  cases l <;> rfl

theorem strStarts_devcpu_dev : strStarts "--device=cpu" "--device=" = true := by decide

theorem strStarts_fp16_dev : strStarts "--fp16" "--device=" = false := by decide

theorem strStarts_fp16False_dev : strStarts "--fp16=False" "--device=" = false := by decide

theorem strStarts_fp16False_fp16 : strStarts "--fp16=False" "--fp16=" = true := by decide

/-- The rewrite leaves the non-flag residue of the argument list unchanged. -/
theorem residual_rewriteArgs : ∀ l : List String, residual (rewriteArgs l) = residual l
  | [] => rfl
  | [a] => by
    rw [rewriteArgs]
    by_cases h1 : a = "--device"
    · rw [if_pos h1, h1]; rfl
    rw [if_neg h1]
    by_cases h2 : strStarts a "--device=" = true
    · rw [if_pos h2, residual_cons, residual_cons]
      simp [h1, h2, strStarts_devcpu_dev]
    rw [if_neg h2]
    by_cases h3 : a = "--fp16"
    · rw [if_pos h3, h3]; rfl
    rw [if_neg h3]
    by_cases h4 : strStarts a "--fp16=" = true
    · rw [if_pos h4, residual_cons, residual_cons]
      simp [h1, h2, h3, h4, strStarts_fp16False_dev, strStarts_fp16False_fp16]
    · rw [if_neg h4, residual_cons]
  | a :: b :: rest => by
    have ih1 := residual_rewriteArgs rest
    have ih2 := residual_rewriteArgs (b :: rest)
    rw [rewriteArgs]
    by_cases h1 : a = "--device"
    · rw [if_pos h1, h1, residual_cons, residual_cons]
      simpa using ih1
    rw [if_neg h1]
    by_cases h2 : strStarts a "--device=" = true
    · have h3x : ¬a = "--fp16" := fun hh => absurd (hh ▸ h2) (by decide)
      rw [if_pos h2, residual_cons, residual_cons]
      simp [h1, h2, h3x, strStarts_devcpu_dev, ih2]
    rw [if_neg h2]
    by_cases h3 : a = "--fp16"
    · rw [if_pos h3, h3, residual_cons, residual_cons]
      simpa using ih1
    rw [if_neg h3]
    by_cases h4 : strStarts a "--fp16=" = true
    · rw [if_pos h4, residual_cons, residual_cons]
      simp [h1, h2, h3, h4, strStarts_fp16False_dev, strStarts_fp16False_fp16, ih2]
    · rw [if_neg h4, residual_cons, residual_cons]
      simp [h1, h2, h3, h4, ih2]

/-- The token set of replacements the rewrite may introduce. -/
def replacementToks : List String :=
  ["--device", "cpu", "--device=cpu", "--fp16", "False", "--fp16=False"]

/-- Every output token of the rewrite is an input token or a replacement. -/
theorem mem_rewriteArgs : ∀ (l : List String) (a : String), a ∈ rewriteArgs l →
    a ∈ l ∨ a ∈ replacementToks
  | [], a, h => absurd h (by simp [rewriteArgs])
  | [b], a, h => by
    rw [rewriteArgs] at h
    split_ifs at h <;> simp [List.mem_cons, replacementToks] at h ⊢ <;> tauto
  | b :: c :: rest, a, h => by
    rw [rewriteArgs] at h
    split_ifs at h with h1 h2 h3 h4 <;>
      simp only [List.mem_cons] at h
    · rcases h with h | h | h
      · simp [replacementToks, h]
      · simp [replacementToks, h]
      · rcases mem_rewriteArgs rest a h with h5 | h5
        · exact Or.inl (List.mem_cons_of_mem _ (List.mem_cons_of_mem _ h5))
        · exact Or.inr h5
    · rcases h with h | h
      · simp [replacementToks, h]
      · rcases mem_rewriteArgs (c :: rest) a h with h5 | h5
        · exact Or.inl (List.mem_cons_of_mem _ h5)
        · exact Or.inr h5
    · rcases h with h | h | h
      · simp [replacementToks, h]
      · simp [replacementToks, h]
      · rcases mem_rewriteArgs rest a h with h5 | h5
        · exact Or.inl (List.mem_cons_of_mem _ (List.mem_cons_of_mem _ h5))
        · exact Or.inr h5
    · rcases h with h | h
      · simp [replacementToks, h]
      · rcases mem_rewriteArgs (c :: rest) a h with h5 | h5
        · exact Or.inl (List.mem_cons_of_mem _ h5)
        · exact Or.inr h5
    · rcases h with h | h
      · exact Or.inl (by simp [h])
      · rcases mem_rewriteArgs (c :: rest) a h with h5 | h5
        · exact Or.inl (List.mem_cons_of_mem _ h5)
        · exact Or.inr h5

/-- The rewrite is idempotent. -/
theorem rewriteArgs_idem : ∀ l : List String, rewriteArgs (rewriteArgs l) = rewriteArgs l
  | [] => rfl
  | [a] => by
    rw [rewriteArgs]
    by_cases h1 : a = "--device"
    · rw [if_pos h1]; rfl
    rw [if_neg h1]
    by_cases h2 : strStarts a "--device=" = true
    · rw [if_pos h2]; rfl
    rw [if_neg h2]
    by_cases h3 : a = "--fp16"
    · rw [if_pos h3]; rfl
    rw [if_neg h3]
    by_cases h4 : strStarts a "--fp16=" = true
    · rw [if_pos h4]; rfl
    · rw [if_neg h4, rewriteArgs, if_neg h1, if_neg h2, if_neg h3, if_neg h4]
  | a :: b :: rest => by
    have ih1 := rewriteArgs_idem rest
    have ih2 := rewriteArgs_idem (b :: rest)
    rw [rewriteArgs]
    by_cases h1 : a = "--device"
    · rw [if_pos h1, rewriteArgs]
      simp [ih1]
    rw [if_neg h1]
    by_cases h2 : strStarts a "--device=" = true
    · rw [if_pos h2, rewriteArgs_cons]
      simp [strStarts_devcpu_dev, ih2]
    rw [if_neg h2]
    by_cases h3 : a = "--fp16"
    · rw [if_pos h3, rewriteArgs]
      simp [strStarts_fp16_dev, ih1]
    rw [if_neg h3]
    by_cases h4 : strStarts a "--fp16=" = true
    · rw [if_pos h4, rewriteArgs_cons]
      simp [strStarts_fp16False_dev, strStarts_fp16False_fp16, ih2]
    · rw [if_neg h4, rewriteArgs_cons, if_neg h1, if_neg h2, if_neg h3, if_neg h4, ih2]

/-! ### Claim theorems: transfer guard and argument rewrite -/

/-- C1: for every sparse tensor and transfer parameters such that the direct
transfer raises `NotImplementedError`, the guard returns the result of the
transfer applied to the densified tensor with the same parameters (one
retry); a failure of a different type propagates unchanged, and for a
non-sparse tensor the guard's output equals the unpatched call's output. -/
theorem C1_transfer_guard {P R : Type} (origTo : Tensor → P → Except Err R)
    (T : Tensor) (p : P) :
    (T.is_sparse = true → ∀ msg, origTo T p = Except.error (Err.notImplemented msg) →
      (patched_to origTo T p).1 = origTo T.to_dense p)
    ∧ (T.is_sparse = false → (patched_to origTo T p).1 = origTo T p)
    ∧ (∀ msg, origTo T p = Except.error (Err.other msg) →
      (patched_to origTo T p).1 = Except.error (Err.other msg)) := by
  refine ⟨?_, ?_, ?_⟩
  · intro hs msg he
    simp [patched_to, he, hs]
  · intro hs
    cases he : origTo T p with
    | ok r => simp [patched_to, he]
    | error e =>
      cases e with
      | notImplemented m => simp [patched_to, he, hs]
      | other m => simp [patched_to, he]
  · intro msg he
    simp [patched_to, he]

/-- A concrete unpatched transfer failing with `NotImplementedError` exactly
on sparse tensors. -/
def origToW : Tensor → Unit → Except Err Nat := fun t _ =>
  if t.is_sparse then Except.error (Err.notImplemented "boom") else Except.ok t.data

theorem C1_transfer_guard_witness :
    (⟨5, true⟩ : Tensor).is_sparse = true
    ∧ origToW ⟨5, true⟩ () = Except.error (Err.notImplemented "boom")
    ∧ (patched_to origToW ⟨5, true⟩ ()).1 = origToW (Tensor.to_dense ⟨5, true⟩) () := by
  refine ⟨rfl, rfl, ?_⟩
  exact (C1_transfer_guard origToW ⟨5, true⟩ ()).1 rfl "boom" rfl

/-- C4: the CPU-retry rewrite on the two example argument lists: space-form
flags consume the following value token, join-form flags are rewritten in
place, positional arguments and order are preserved. -/
theorem C4_rewrite_examples :
    rewriteArgs ["--device", "mps", "--fp16", "True", "input.wav"] =
      ["--device", "cpu", "--fp16", "False", "input.wav"]
    ∧ rewriteArgs ["--device=mps", "--fp16=True"] = ["--device=cpu", "--fp16=False"] :=
  ⟨rfl, rfl⟩

/-- C5: frame property of the CPU-retry rewrite: the residue of tokens that
are neither one of the two flags nor a consumed value token is unchanged
(same tokens, same order), and every output token is an input token or one
of the fixed replacement tokens. -/
theorem C5_rewrite_frame (args : List String) :
    residual (rewriteArgs args) = residual args
    ∧ ∀ a ∈ rewriteArgs args, a ∈ args ∨ a ∈ replacementToks :=
  ⟨residual_rewriteArgs args, fun a h => mem_rewriteArgs args a h⟩

theorem C5_rewrite_frame_witness :
    residual (rewriteArgs ["--device", "mps", "out.txt"]) =
      residual ["--device", "mps", "out.txt"]
    ∧ ("out.txt" ∈ (["--device", "mps", "out.txt"] : List String)
        ∨ "out.txt" ∈ replacementToks) := by
  have h := C5_rewrite_frame ["--device", "mps", "out.txt"]
  exact ⟨h.1, h.2 "out.txt" (by decide)⟩

/-- C6: the CPU-retry rewrite is idempotent: the already-CPU example list is
unchanged, and applying the rewrite twice equals applying it once on every
argument list. -/
theorem C6_rewrite_idempotent :
    rewriteArgs ["--device", "cpu", "--fp16", "False"] =
      ["--device", "cpu", "--fp16", "False"]
    ∧ ∀ args : List String, rewriteArgs (rewriteArgs args) = rewriteArgs args :=
  ⟨rfl, rewriteArgs_idem⟩

/-! ### Claim C2: propagation of failures without the sparse marker -/

/-- A transfer raising a `NotImplementedError` whose message does not
contain the sparse-operation marker, on sparse tensors only. -/
def origToC2 : Tensor → Unit → Except Err Nat := fun t _ =>
  if t.is_sparse then Except.error (Err.notImplemented "unrelated op failure")
  else Except.ok 7

/-- C2 counterexample: the transfer guard does not inspect the message; on a
sparse tensor it densifies and retries a `NotImplementedError` whose message
lacks the marker instead of propagating it unchanged. -/
theorem C2_counterexample :
    strContains "unrelated op failure" markerStr = false
    ∧ origToC2 ⟨0, true⟩ () = Except.error (Err.notImplemented "unrelated op failure")
    ∧ (patched_to origToC2 ⟨0, true⟩ ()).1 = Except.ok 7 :=
  ⟨by decide, rfl, rfl⟩

/-- C2 amended: a failure that is not a `NotImplementedError` propagates
unchanged through every guard and the entry point; a `NotImplementedError`
whose message lacks the marker propagates unchanged through the module
apply guard, the model load guard (which propagates every failure), the
entry point (no CPU fallback: a single CLI call), and through the transfer
guard when the tensor is not sparse; the transfer guard, however, densifies
and retries any `NotImplementedError` on a sparse tensor regardless of the
message. -/
theorem C2_no_marker_propagation {P R : Type} (origTo : Tensor → P → Except Err R)
    (bulk : Module → Except Err Module) (fn : Tensor → Except Err Tensor)
    (origLoad : String → Option String → Except Err Model)
    (cli : List String → Except Err Unit)
    (T : Tensor) (p : P) (m : Module) (nm : String) (dev : Option String)
    (t0 t1 : Int) (argv : List String) (msg : String)
    (hmark : strContains msg markerStr = false) :
    (bulk m = Except.error (Err.notImplemented msg) →
      patched_apply bulk fn m = (Except.error (Err.notImplemented msg), []))
    ∧ (∀ s, bulk m = Except.error (Err.other s) →
      patched_apply bulk fn m = (Except.error (Err.other s), []))
    ∧ (∀ e, origLoad nm dev = Except.error e →
      (optimized_load_model origLoad nm dev).1 = Except.error e)
    ∧ (cli (stripBench argv) = Except.error (Err.notImplemented msg) →
      (mainRun cli t0 t1 argv).result = Except.error (Err.notImplemented msg)
      ∧ (mainRun cli t0 t1 argv).calls = [stripBench argv])
    ∧ (∀ s, cli (stripBench argv) = Except.error (Err.other s) →
      (mainRun cli t0 t1 argv).result = Except.error (Err.other s)
      ∧ (mainRun cli t0 t1 argv).calls = [stripBench argv])
    ∧ (∀ s, origTo T p = Except.error (Err.other s) →
      (patched_to origTo T p).1 = Except.error (Err.other s))
    ∧ (T.is_sparse = false → origTo T p = Except.error (Err.notImplemented msg) →
      (patched_to origTo T p).1 = Except.error (Err.notImplemented msg))
    ∧ (T.is_sparse = true → origTo T p = Except.error (Err.notImplemented msg) →
      (patched_to origTo T p).1 = origTo T.to_dense p) := by
  refine ⟨?_, ?_, ?_, ?_, ?_, ?_, ?_, ?_⟩
  · intro hb
    cases m with
    | mk ps bs cs => simp [patched_apply, hb, hmark]
  · intro s hb
    cases m with
    | mk ps bs cs => simp [patched_apply, hb]
  · intro e hl
    simp [optimized_load_model, hl]
  · intro hc
    refine ⟨?_, ?_⟩ <;>
      by_cases hb : argv.contains "--benchmark" <;>
      simp [mainRun, benchmark_transcription, hb, hc, hmark]
  · intro s hc
    refine ⟨?_, ?_⟩ <;>
      by_cases hb : argv.contains "--benchmark" <;>
      simp [mainRun, benchmark_transcription, hb, hc]
  · intro s he
    simp [patched_to, he]
  · intro hs he
    simp [patched_to, he, hs]
  · intro hs he
    simp [patched_to, he, hs]

/-- A wrapped CLI raising a `NotImplementedError` without the marker. -/
def cliC2 : List String → Except Err Unit := fun _ =>
  Except.error (Err.notImplemented "plain failure")

theorem C2_no_marker_propagation_witness :
    strContains "plain failure" markerStr = false
    ∧ (mainRun cliC2 0 0 ["prog"]).result = Except.error (Err.notImplemented "plain failure")
    ∧ (mainRun cliC2 0 0 ["prog"]).calls = [stripBench ["prog"]] := by
  have h := C2_no_marker_propagation (P := Unit) (R := Unit)
    (fun _ _ => Except.ok ()) (fun mm => Except.ok mm) (fun t => Except.ok t)
    (fun _ _ => Except.ok (Model.mk false)) cliC2
    ⟨0, false⟩ () (Module.mk [] [] ModuleList.nil) "tiny" none
    0 0 ["prog"] "plain failure" (by decide)
  exact ⟨by decide, (h.2.2.2.1 rfl).1, (h.2.2.2.1 rfl).2⟩

/-! ### Claim C3: the module apply guard transforms every item -/

/-- A transform failing with the marker error on every tensor, including
densified ones. -/
def fnC3 : Tensor → Except Err Tensor := fun _ =>
  Except.error (Err.notImplemented markerStr)

/-- A bulk transform raising the marker error on every module. -/
def bulkC3 : Module → Except Err Module := fun _ =>
  Except.error (Err.notImplemented markerStr)

/-- A module with exactly one parameter, which is sparse. -/
def mC3 : Module := Module.mk [("w", some ⟨1, true⟩)] [] ModuleList.nil

/-- C3 counterexample: a module with exactly one (sparse) parameter whose
bulk transform raises the marker error, yet the guard produces no
transformed value at all: the densified reapplication fails inside the
per-item handler and the failure propagates, so the guard raises instead of
transforming all parameters and buffers. -/
theorem C3_counterexample :
    countSparseParams mC3 = 1
    ∧ Module.numParams mC3 = 1 ∧ Module.numBuffers mC3 = 0
    ∧ strContains markerStr markerStr = true
    ∧ bulkC3 mC3 = Except.error (Err.notImplemented markerStr)
    ∧ (patched_apply bulkC3 fnC3 mC3).1 = Except.error (Err.notImplemented markerStr) :=
  ⟨rfl, rfl, rfl, by decide, rfl, rfl⟩

/-- Under the per-item loop, when the transform succeeds on every non-sparse
tensor and never raises a foreign exception type, every non-`None` entry is
replaced by its `transformedTensor` value. -/
theorem applyItems_ok (fn : Tensor → Except Err Tensor) (label : String)
    (hfn : ∀ t, t.is_sparse = false → ∃ r, fn t = Except.ok r)
    (hnoOther : ∀ t s, fn t ≠ Except.error (Err.other s)) :
    ∀ l : List (String × Option Tensor), ∃ logs, applyItems fn label l =
      (Except.ok (l.map fun kv => (kv.1, kv.2.map (transformedTensor fn))), logs)
  | [] => ⟨[], rfl⟩
  | (k, none) :: rest => by
    obtain ⟨logs, hrest⟩ := applyItems_ok fn label hfn hnoOther rest
    exact ⟨logs, by simp [applyItems, hrest]⟩
  | (k, some t) :: rest => by
    obtain ⟨logs, hrest⟩ := applyItems_ok fn label hfn hnoOther rest
    have hitem : ∃ logs1, applyItem fn label k t =
        (Except.ok (transformedTensor fn t), logs1) := by
      cases hf : fn t with
      | ok r => exact ⟨[], by simp [applyItem, hf, transformedTensor]⟩
      | error e =>
        cases e with
        | other s => exact absurd hf (hnoOther t s)
        | notImplemented mm =>
          cases hs : t.is_sparse with
          | false =>
            obtain ⟨r, hr⟩ := hfn t hs
            rw [hf] at hr
            exact absurd hr (by simp)
          | true =>
            obtain ⟨r, hr⟩ := hfn t.to_dense rfl
            exact ⟨[LogEntry.info ("Converting sparse " ++ label ++ " to dense: " ++ k)],
              by simp [applyItem, hf, hs, hr, transformedTensor]⟩
    obtain ⟨logs1, hitem⟩ := hitem
    exact ⟨logs1 ++ logs, by simp [applyItems, hitem, hrest]⟩

mutual

/-- When the bulk transform raises the marker error on every module and the
transform succeeds on every non-sparse tensor (raising only
`NotImplementedError` otherwise), the guard returns the full deep
transform of the module tree. -/
theorem patched_apply_deep (bulk : Module → Except Err Module)
    (fn : Tensor → Except Err Tensor) (msg : String)
    (hmark : strContains msg markerStr = true)
    (hbulk : ∀ m2, bulk m2 = Except.error (Err.notImplemented msg))
    (hfn : ∀ t, t.is_sparse = false → ∃ r, fn t = Except.ok r)
    (hnoOther : ∀ t s, fn t ≠ Except.error (Err.other s)) :
    ∀ m : Module, ∃ logs,
      patched_apply bulk fn m = (Except.ok (specDeepTransform fn m), logs)
  | Module.mk ps bs cs => by
    obtain ⟨logsP, hP⟩ := applyItems_ok fn "parameter" hfn hnoOther ps
    obtain ⟨logsB, hB⟩ := applyItems_ok fn "buffer" hfn hnoOther bs
    obtain ⟨logsC, hC⟩ := applyChildren_deep bulk fn msg hmark hbulk hfn hnoOther cs
    refine ⟨LogEntry.warn ("Handling sparse tensor in Module._apply: " ++ msg) ::
      (logsP ++ (logsB ++ logsC)), ?_⟩
    simp [patched_apply, hbulk (Module.mk ps bs cs), hmark, hP, hB, hC, specDeepTransform]

/-- Child recursion counterpart of `patched_apply_deep`. -/
theorem applyChildren_deep (bulk : Module → Except Err Module)
    (fn : Tensor → Except Err Tensor) (msg : String)
    (hmark : strContains msg markerStr = true)
    (hbulk : ∀ m2, bulk m2 = Except.error (Err.notImplemented msg))
    (hfn : ∀ t, t.is_sparse = false → ∃ r, fn t = Except.ok r)
    (hnoOther : ∀ t s, fn t ≠ Except.error (Err.other s)) :
    ∀ cs : ModuleList, ∃ logs,
      applyChildren bulk fn cs = (Except.ok (specDeepTransformList fn cs), logs)
  | ModuleList.nil => ⟨[], rfl⟩
  | ModuleList.cons c rest => by
    obtain ⟨l1, h1⟩ := patched_apply_deep bulk fn msg hmark hbulk hfn hnoOther c
    obtain ⟨l2, h2⟩ := applyChildren_deep bulk fn msg hmark hbulk hfn hnoOther rest
    exact ⟨l1 ++ l2, by simp [applyChildren, h1, h2, specDeepTransformList]⟩

end

/-- C3 amended: for a module with exactly one sparse parameter whose bulk
transform raises the marker error everywhere, and whose transform succeeds
on every non-sparse tensor (and raises only `NotImplementedError`), the
guard produces a transformed value for all parameters and buffers (sparse
ones via the densified fallback) and recurses into every child module:
its result is the full deep transform, with parameter and buffer counts
preserved. -/
theorem C3_module_apply_guard (bulk : Module → Except Err Module)
    (fn : Tensor → Except Err Tensor) (m : Module) (msg : String)
    (hmark : strContains msg markerStr = true)
    (hbulk : ∀ m2, bulk m2 = Except.error (Err.notImplemented msg))
    (hfn : ∀ t, t.is_sparse = false → ∃ r, fn t = Except.ok r)
    (hnoOther : ∀ t s, fn t ≠ Except.error (Err.other s))
    (hone : countSparseParams m = 1) :
    ∃ logs, patched_apply bulk fn m = (Except.ok (specDeepTransform fn m), logs)
      ∧ Module.numParams (specDeepTransform fn m) = Module.numParams m
      ∧ Module.numBuffers (specDeepTransform fn m) = Module.numBuffers m := by
  obtain ⟨logs, h⟩ := patched_apply_deep bulk fn msg hmark hbulk hfn hnoOther m
  refine ⟨logs, h, ?_, ?_⟩ <;>
    cases m <;> simp [specDeepTransform, Module.numParams, Module.numBuffers]

/-- A transform succeeding on dense tensors and raising the marker error on
sparse ones. -/
def fnW3 : Tensor → Except Err Tensor := fun t =>
  if t.is_sparse then Except.error (Err.notImplemented markerStr)
  else Except.ok ⟨t.data + 1, false⟩

/-- A bulk transform raising the marker error on every module. -/
def bulkW3 : Module → Except Err Module := fun _ =>
  Except.error (Err.notImplemented markerStr)

/-- A module with two parameters (one sparse), one buffer and one child. -/
def mW3 : Module :=
  Module.mk [("a", some ⟨1, true⟩), ("b", some ⟨2, false⟩)]
    [("buf", some ⟨3, false⟩)]
    (ModuleList.cons (Module.mk [("c", some ⟨4, false⟩)] [] ModuleList.nil)
      ModuleList.nil)

theorem C3_module_apply_guard_witness :
    countSparseParams mW3 = 1
    ∧ ∃ logs, patched_apply bulkW3 fnW3 mW3 =
        (Except.ok (specDeepTransform fnW3 mW3), logs)
      ∧ Module.numParams (specDeepTransform fnW3 mW3) = Module.numParams mW3
      ∧ Module.numBuffers (specDeepTransform fnW3 mW3) = Module.numBuffers mW3 := by
  refine ⟨rfl, ?_⟩
  exact C3_module_apply_guard bulkW3 fnW3 mW3 markerStr (by decide)
    (fun _ => rfl)
    (fun t hs => ⟨⟨t.data + 1, false⟩, by simp [fnW3, hs]⟩)
    (fun t s h => by unfold fnW3 at h; split at h <;> simp_all)
    rfl

/-! ### Claim C7: every caught failure is logged or re-raised -/

/-- A non-sparse tensor. -/
def tC7 : Tensor := ⟨3, false⟩

/-- A transform raising a `NotImplementedError` on every tensor. -/
def fnC7 : Tensor → Except Err Tensor := fun _ =>
  Except.error (Err.notImplemented "dropped op")

/-- A bulk transform raising the marker error on every module. -/
def bulkC7 : Module → Except Err Module := fun _ =>
  Except.error (Err.notImplemented markerStr)

/-- A module with a single non-sparse parameter. -/
def mC7 : Module := Module.mk [("w", some tC7)] [] ModuleList.nil

/-- C7 counterexample: the per-item handler of the module apply guard
catches the transform's `NotImplementedError` on the non-sparse parameter
and discards it silently: the guard returns success with the parameter
untouched, and the only log record of the whole run is the bulk-level
warning -- the caught per-item failure is neither logged nor re-raised. -/
theorem C7_counterexample :
    fnC7 tC7 = Except.error (Err.notImplemented "dropped op")
    ∧ patched_apply bulkC7 fnC7 mC7 =
        (Except.ok mC7,
          [LogEntry.warn ("Handling sparse tensor in Module._apply: " ++ markerStr)]) :=
  ⟨rfl, rfl⟩

/-- C7 amended: every caught failure is logged before being handled or
re-raised -- the transfer guard logs on both of its catch paths, the module
apply guard logs the bulk failure it recovers (first log record is the
warning), the entry point logs an error record for every failure of the
first CLI call -- EXCEPT in the module apply guard's per-item handler,
which silently discards a `NotImplementedError` raised on a non-sparse
parameter or buffer, keeping the old value with no log record. -/
theorem C7_logging :
    (∀ (P R : Type) (origTo : Tensor → P → Except Err R) (T : Tensor) (p : P) (msg : String),
      origTo T p = Except.error (Err.notImplemented msg) →
      (patched_to origTo T p).2 ≠ [])
    ∧ (∀ (bulk : Module → Except Err Module) (fn : Tensor → Except Err Tensor)
        (m : Module) (msg : String),
      bulk m = Except.error (Err.notImplemented msg) → strContains msg markerStr = true →
      (patched_apply bulk fn m).2.head? =
        some (LogEntry.warn ("Handling sparse tensor in Module._apply: " ++ msg)))
    ∧ (∀ (cli : List String → Except Err Unit) (t0 t1 : Int) (argv : List String) (e : Err),
      cli (stripBench argv) = Except.error e →
      ∃ s, LogEntry.error s ∈ (mainRun cli t0 t1 argv).logs)
    ∧ (∀ (fn : Tensor → Except Err Tensor) (label key : String) (t : Tensor) (msg : String),
      t.is_sparse = false → fn t = Except.error (Err.notImplemented msg) →
      applyItem fn label key t = (Except.ok t, [])) := by
  refine ⟨?_, ?_, ?_, ?_⟩
  · intro P R origTo T p msg he
    cases hs : T.is_sparse <;> simp [patched_to, he, hs]
  · intro bulk fn m msg hb hm
    cases m with
    | mk ps bs cs =>
      rcases hp : applyItems fn "parameter" ps with ⟨rp, lp⟩
      rcases hq : applyItems fn "buffer" bs with ⟨rq, lq⟩
      rcases hc : applyChildren bulk fn cs with ⟨rc, lc⟩
      cases rp <;> cases rq <;> cases rc <;>
        simp [patched_apply, hb, hm, hp, hq, hc]
  · intro cli t0 t1 argv e hc
    cases e with
    | notImplemented msg =>
      refine ⟨"NotImplementedError: " ++ msg, ?_⟩
      by_cases hb : argv.contains "--benchmark" = true <;>
        by_cases hm : strContains msg markerStr = true <;>
        simp [mainRun, benchmark_transcription, hb, hc, hm]
    | other msg =>
      refine ⟨"Unexpected error: " ++ msg, ?_⟩
      by_cases hb : argv.contains "--benchmark" = true <;>
        simp [mainRun, benchmark_transcription, hb, hc]
  · intro fn label key t msg hs hf
    simp [applyItem, hf, hs]

theorem C7_logging_witness :
    (patched_to origToW ⟨5, true⟩ ()).2 ≠ []
    ∧ applyItem fnC7 "parameter" "w" tC7 = (Except.ok tC7, []) := by
  have h := C7_logging
  exact ⟨h.1 Unit Nat origToW ⟨5, true⟩ () "boom" rfl,
    h.2.2.2 fnC7 "parameter" "w" tC7 "dropped op" rfl rfl⟩

/-! ### Claims C8, C9, C10: entry point retry, benchmark mode, exit codes -/

/-- C8: the entry point calls the wrapped CLI at most twice (one retry);
when the first call raises the marker error and the retried call fails for
any reason, that failure propagates unchanged and the process exits with
code 1 -- no second rewrite or fallback occurs. -/
theorem C8_single_retry (cli : List String → Except Err Unit) (t0 t1 : Int)
    (argv : List String) :
    (mainRun cli t0 t1 argv).calls.length ≤ 2
    ∧ (∀ msg e2, strContains msg markerStr = true →
      cli (stripBench argv) = Except.error (Err.notImplemented msg) →
      cli (retryArgv (stripBench argv)) = Except.error e2 →
      (mainRun cli t0 t1 argv).result = Except.error e2
      ∧ topLevel cli t0 t1 argv = 1) := by
  constructor
  · rcases hc : cli (stripBench argv) with e | r
    swap
    · by_cases hb : "--benchmark" ∈ argv <;>
        simp [mainRun, benchmark_transcription, hb, hc]
    · cases e with
      | notImplemented msg =>
        by_cases hb : "--benchmark" ∈ argv <;>
        by_cases hm : strContains msg markerStr = true <;>
          simp [mainRun, benchmark_transcription, hb, hc, hm]
      | other s =>
        by_cases hb : "--benchmark" ∈ argv <;>
          simp [mainRun, benchmark_transcription, hb, hc]
  · intro msg e2 hm h1 h2
    constructor
    · by_cases hb : "--benchmark" ∈ argv <;>
        simp [mainRun, benchmark_transcription, hb, h1, hm, h2]
    · by_cases hb : "--benchmark" ∈ argv <;>
        simp [topLevel, mainRun, benchmark_transcription, hb, h1, hm, h2]

/-- A wrapped CLI raising the marker error on the original arguments and a
different failure on the rewritten (CPU) arguments. -/
def cliW8 : List String → Except Err Unit := fun a =>
  if a.contains "--device=cpu" then Except.error (Err.other "retry failed")
  else Except.error (Err.notImplemented markerStr)

/-- The example argv for the C8 witness. -/
def argvW8 : List String := ["prog", "--device=mps"]

theorem C8_single_retry_witness :
    (mainRun cliW8 0 0 argvW8).calls.length ≤ 2
    ∧ (mainRun cliW8 0 0 argvW8).result = Except.error (Err.other "retry failed")
    ∧ topLevel cliW8 0 0 argvW8 = 1 := by
  have h := C8_single_retry cliW8 0 0 argvW8
  refine ⟨h.1, ?_, ?_⟩
  · exact (h.2 markerStr (Err.other "retry failed") (by decide) rfl rfl).1
  · exact (h.2 markerStr (Err.other "retry failed") (by decide) rfl rfl).2

/-- A wrapped CLI that always succeeds. -/
def cliC9 : List String → Except Err Nat := fun _ => Except.ok 0

/-- C9 counterexample: `sys.argv.remove` strips only the FIRST occurrence
of `--benchmark`, so with the flag duplicated the wrapped CLI still
receives `--benchmark`. -/
theorem C9_counterexample :
    "--benchmark" ∈ (["prog", "--benchmark", "--benchmark"] : List String)
    ∧ (mainRun cliC9 0 0 ["prog", "--benchmark", "--benchmark"]).calls =
        [["prog", "--benchmark"]]
    ∧ "--benchmark" ∈ (["prog", "--benchmark"] : List String) :=
  ⟨by decide, rfl, by decide⟩

/-- C9 amended: when `--benchmark` occurs exactly once in the argument
list, no argument list passed to the wrapped CLI (first run or CPU retry)
contains the flag; on success of the (benchmarked) run the logged duration
is the difference of the two clock samples, and with a monotone clock every
logged duration is non-negative. -/
theorem C9_benchmark_strip {R : Type} (cli : List String → Except Err R)
    (t0 t1 : Int) (argv : List String)
    (honce : argv.count "--benchmark" = 1) :
    (∀ c ∈ (mainRun cli t0 t1 argv).calls, "--benchmark" ∉ c)
    ∧ (∀ r, cli (stripBench argv) = Except.ok r →
      (mainRun cli t0 t1 argv).duration = some (t1 - t0))
    ∧ (t0 ≤ t1 → ∀ d, (mainRun cli t0 t1 argv).duration = some d → 0 ≤ d) := by
  have hmem : "--benchmark" ∈ argv :=
    List.count_pos_iff.mp (by rw [honce]; exact Nat.one_pos)
  have hb : argv.contains "--benchmark" = true := List.elem_iff.mpr hmem
  have hnotin1 : "--benchmark" ∉ stripBench argv := by
    rw [stripBench, if_pos hb]
    refine List.count_eq_zero.mp ?_
    rw [List.count_erase_self, honce]
  have hretry : "--benchmark" ∉ retryArgv (stripBench argv) := by
    intro hmm
    rcases List.mem_append.mp hmm with hh | hh
    · exact hnotin1 (List.take_subset _ _ hh)
    · rcases mem_rewriteArgs _ _ hh with hh2 | hh2
      · exact hnotin1 (List.drop_subset _ _ hh2)
      · exact absurd hh2 (by decide)
  have hcalls : ∀ c ∈ (mainRun cli t0 t1 argv).calls,
      c = stripBench argv ∨ c = retryArgv (stripBench argv) := by
    intro c hcmem
    rcases hc : cli (stripBench argv) with e | r
    swap
    · simp [mainRun, benchmark_transcription, hmem, hc] at hcmem
      exact Or.inl hcmem
    · cases e with
      | notImplemented msg =>
        by_cases hm : strContains msg markerStr = true <;>
          simp [mainRun, benchmark_transcription, hmem, hc, hm] at hcmem <;>
          tauto
      | other ss =>
        simp [mainRun, benchmark_transcription, hmem, hc] at hcmem
        exact Or.inl hcmem
  refine ⟨?_, ?_, ?_⟩
  · intro c hcmem
    rcases hcalls c hcmem with rfl | rfl
    · exact hnotin1
    · exact hretry
  · intro r hc
    simp [mainRun, benchmark_transcription, hmem, hc]
  · intro hle d hd
    rcases hc : cli (stripBench argv) with e | r
    swap
    · have hdur : (mainRun cli t0 t1 argv).duration = some (t1 - t0) := by
        simp [mainRun, benchmark_transcription, hmem, hc]
      rw [hdur] at hd
      obtain rfl : t1 - t0 = d := by simpa using hd
      omega
    · cases e with
      | notImplemented msg =>
        by_cases hm : strContains msg markerStr = true <;>
          simp [mainRun, benchmark_transcription, hmem, hc, hm] at hd
      | other ss =>
        simp [mainRun, benchmark_transcription, hmem, hc] at hd

/-- A wrapped CLI that succeeds, for the C9 witness. -/
def cliW9 : List String → Except Err Nat := fun _ => Except.ok 5

theorem C9_benchmark_strip_witness :
    "--benchmark" ∉ stripBench ["prog", "--benchmark", "--fp16", "True"]
    ∧ (mainRun cliW9 3 7 ["prog", "--benchmark", "--fp16", "True"]).duration = some (7 - 3)
    ∧ ∀ d, (mainRun cliW9 3 7 ["prog", "--benchmark", "--fp16", "True"]).duration = some d →
        0 ≤ d := by
  have h := C9_benchmark_strip cliW9 3 7 ["prog", "--benchmark", "--fp16", "True"] (by decide)
  exact ⟨h.1 (stripBench ["prog", "--benchmark", "--fp16", "True"]) (by decide),
    h.2.1 5 rfl, h.2.2 (by omega)⟩

/-- C10: the process exit code is 0 exactly when the wrapped run (after any
retry) succeeds, 1 exactly when an exception reaches the top level, and no
other exit code is produced. -/
theorem C10_exit_codes (cli : List String → Except Err Unit) (t0 t1 : Int)
    (argv : List String) :
    (topLevel cli t0 t1 argv = 0 ↔ ∃ u, (mainRun cli t0 t1 argv).result = Except.ok u)
    ∧ (topLevel cli t0 t1 argv = 1 ↔ ∃ e, (mainRun cli t0 t1 argv).result = Except.error e)
    ∧ (topLevel cli t0 t1 argv = 0 ∨ topLevel cli t0 t1 argv = 1) := by
  rcases hr : (mainRun cli t0 t1 argv).result with u | e <;>
    simp [topLevel, hr]

end WhisperMps
